import Mathlib

/-!
Shallow embedding of the Justitia engagement state machine: the Case, Quote,
Payment and File records, the Stripe webhook reconciler
(handlePaymentWebhook), the payment-intent issuer (createPaymentIntent), the
quote lifecycle operations (submit, withdraw, updateStatus), the file-access
derivation (getSignedDownloadUrl) and the file-upload endpoint. Database
tables are lists of records; database-generated identifiers and timestamps
enter as parameters; the Stripe client and the object store are abstracted as
parameters describing the outcome of the external call.
-/

namespace Justitia

/-- Role of an authenticated user, from the user_role enum. -/
inductive Role
  | client
  | lawyer
deriving DecidableEq, Repr

/-- Lifecycle status of a case, from the case_status enum. -/
inductive CaseStatus
  | open_
  | engaged
  | closed
  | cancelled
deriving DecidableEq, Repr

/-- Lifecycle status of a quote, from the quote_status enum. -/
inductive QuoteStatus
  | proposed
  | accepted
  | rejected
deriving DecidableEq, Repr

/-- Lifecycle status of a payment, from the payment_status enum. -/
inductive PaymentStatus
  | pending
  | succeeded
  | failed
deriving DecidableEq, Repr

/-- Row of the cases table (columns the core logic reads or writes). -/
structure Case where
  id : String
  clientId : String
  status : CaseStatus
  acceptedQuoteId : Option String
  createdAt : Nat
  updatedAt : Nat
deriving DecidableEq, Repr

/-- Row of the quotes table. -/
structure Quote where
  id : String
  caseId : String
  lawyerId : String
  amount : Nat
  expectedDays : Nat
  note : Option String
  status : QuoteStatus
  createdAt : Nat
  updatedAt : Nat
deriving DecidableEq, Repr

/-- Row of the payments table. -/
structure Payment where
  id : String
  caseId : String
  quoteId : String
  clientId : String
  lawyerId : String
  amount : Nat
  stripePaymentIntentId : String
  clientSecret : Option String
  status : PaymentStatus
  createdAt : Nat
  updatedAt : Nat
deriving DecidableEq, Repr

/-- Row of the files table. -/
structure FileRecord where
  id : String
  caseId : String
  originalFilename : String
  storageKey : String
  fileSize : Nat
  mimeType : String
  uploadedAt : Nat
deriving DecidableEq, Repr

/-- The database: one list per table. -/
structure DB where
  cases : List Case
  quotes : List Quote
  payments : List Payment
  files : List FileRecord
deriving DecidableEq, Repr

/-- Error codes thrown as TRPCError by the routers and services. -/
inductive ApiError
  | UNAUTHORIZED
  | FORBIDDEN
  | NOT_FOUND
  | BAD_REQUEST
  | INTERNAL_SERVER_ERROR
deriving DecidableEq, Repr

deriving instance DecidableEq for Except

/-- Kind of an incoming Stripe event, as branched on by handlePaymentWebhook. -/
inductive StripeEventType
  | succeeded
  | failed
  | other
deriving DecidableEq, Repr

/-- A verified Stripe webhook event: its type, the payment-intent id, and the
quoteId/caseId metadata that createPaymentIntent attached to the intent. -/
structure StripeEvent where
  type : StripeEventType
  intentId : String
  quoteId : String
  caseId : String
deriving DecidableEq, Repr

/-- Step 1 of the succeeded-webhook transaction: mark the payment row whose
stripePaymentIntentId matches as succeeded. -/
def markPaymentSucceeded (intentId : String) (now : Nat) (p : Payment) : Payment :=
  if p.stripePaymentIntentId = intentId then
    { p with status := .succeeded, updatedAt := now }
  else p

/-- Step 2 of the succeeded-webhook transaction: reject every quote on the
case that is still proposed. -/
def rejectProposedOnCase (caseId : String) (now : Nat) (q : Quote) : Quote :=
  if q.caseId = caseId ∧ q.status = .proposed then
    { q with status := .rejected, updatedAt := now }
  else q

/-- Step 3 of the succeeded-webhook transaction: accept the quote whose id is
named in the event metadata. -/
def acceptTargetQuote (quoteId : String) (now : Nat) (q : Quote) : Quote :=
  if q.id = quoteId then
    { q with status := .accepted, updatedAt := now }
  else q

/-- Step 4 of the succeeded-webhook transaction: set the case to engaged with
acceptedQuoteId pointing at the event metadata quote. -/
def engageCase (caseId quoteId : String) (now : Nat) (c : Case) : Case :=
  if c.id = caseId then
    { c with status := .engaged, acceptedQuoteId := some quoteId, updatedAt := now }
  else c

/-- The four-write transaction run by handlePaymentWebhook on a
payment_intent.succeeded event, in the order of the source: payment update,
sibling-quote rejection, target-quote acceptance, case engagement. None of
the four updates is guarded by the current status of the row it touches. -/
def processSucceeded (intentId quoteId caseId : String) (now : Nat) (db : DB) : DB :=
  { db with
    payments := db.payments.map (markPaymentSucceeded intentId now),
    quotes := (db.quotes.map (rejectProposedOnCase caseId now)).map
      (acceptTargetQuote quoteId now),
    cases := db.cases.map (engageCase caseId quoteId now) }

/-- Mark the payment row for the intent as failed, as the
payment_intent.payment_failed branch does. -/
def markPaymentFailed (intentId : String) (now : Nat) (p : Payment) : Payment :=
  if p.stripePaymentIntentId = intentId then
    { p with status := .failed, updatedAt := now }
  else p

/-- The webhook handler: dispatch on the event type; any other event type is
acknowledged without touching the database. -/
def handlePaymentWebhook (e : StripeEvent) (now : Nat) (db : DB) : DB :=
  match e.type with
  | .succeeded => processSucceeded e.intentId e.quoteId e.caseId now db
  | .failed => { db with payments := db.payments.map (markPaymentFailed e.intentId now) }
  | .other => db

/-- Normalization applied by the submit handler when updating an existing
quote: a JavaScript empty string is coerced to null by input.note or null. -/
def normNote (note : Option String) : Option String :=
  match note with
  | some s => if s = "" then none else some s
  | none => none

/-- Zod input validation of quotes.submit: amount positive and at most
1000000, expectedDays a positive integer at most 365, note at most 1000
characters. -/
def submitInputValid (amount expectedDays : Nat) (note : Option String) : Prop :=
  0 < amount ∧ amount ≤ 1000000 ∧ 0 < expectedDays ∧ expectedDays ≤ 365 ∧
    (note.getD "").length ≤ 1000

instance (amount expectedDays : Nat) (note : Option String) :
    Decidable (submitInputValid amount expectedDays note) := by
  unfold submitInputValid
  infer_instance

/-- The quotes.submit mutation: role check, case lookup, open check, then
either an in-place update of the first existing proposed quote for
(caseId, lawyerId) or insertion of a new proposed quote. The database-chosen
id of a newly inserted quote enters as newQuoteId; the returned value is the
quote id reported to the caller. -/
def submitQuote (lawyerId : String) (role : Role) (caseId : String)
    (amount expectedDays : Nat) (note : Option String) (newQuoteId : String)
    (now : Nat) (db : DB) : DB × Except ApiError String :=
  if ¬ submitInputValid amount expectedDays note then (db, .error .BAD_REQUEST)
  else if role ≠ .lawyer then (db, .error .FORBIDDEN)
  else
    match db.cases.find? (fun c => c.id = caseId) with
    | none => (db, .error .NOT_FOUND)
    | some c =>
      if c.status ≠ .open_ then (db, .error .BAD_REQUEST)
      else
        match db.quotes.find? (fun q =>
            q.caseId = caseId ∧ q.lawyerId = lawyerId ∧ q.status = .proposed) with
        | some q0 =>
          let upd : Quote → Quote := fun q =>
            if q.id = q0.id then
              { q with amount := amount, expectedDays := expectedDays,
                       note := normNote note, updatedAt := now }
            else q
          ({ db with quotes := db.quotes.map upd }, .ok q0.id)
        | none =>
          ({ db with quotes := db.quotes ++
              [{ id := newQuoteId, caseId := caseId, lawyerId := lawyerId,
                 amount := amount, expectedDays := expectedDays, note := note,
                 status := .proposed, createdAt := now, updatedAt := now }] },
           .ok newQuoteId)

/-- The quotes.withdraw mutation: role check, then lookup of a quote with the
given id owned by the lawyer and still proposed; if found it is deleted. -/
def withdrawQuote (lawyerId : String) (role : Role) (quoteId : String)
    (db : DB) : DB × Except ApiError Unit :=
  if role ≠ .lawyer then (db, .error .FORBIDDEN)
  else
    match db.quotes.find? (fun q =>
        q.id = quoteId ∧ q.lawyerId = lawyerId ∧ q.status = .proposed) with
    | none => (db, .error .NOT_FOUND)
    | some _ =>
      ({ db with quotes := db.quotes.filter (fun q => ¬ q.id = quoteId) }, .ok ())

/-- The cases.updateStatus mutation: zod restricts the requested status to
closed or cancelled, the handler checks the client role and case ownership,
and then applies the new status unconditionally, without reading the current
status of the case. -/
def updateStatus (userId : String) (role : Role) (caseId : String)
    (newStatus : CaseStatus) (now : Nat) (db : DB) : DB × Except ApiError Unit :=
  if ¬ (newStatus = .closed ∨ newStatus = .cancelled) then (db, .error .BAD_REQUEST)
  else if role ≠ .client then (db, .error .FORBIDDEN)
  else
    match db.cases.find? (fun c => c.id = caseId ∧ c.clientId = userId) with
    | none => (db, .error .NOT_FOUND)
    | some _ =>
      ({ db with cases := db.cases.map (fun c =>
          if c.id = caseId then { c with status := newStatus, updatedAt := now }
          else c) },
       .ok ())

/-- The cases.create mutation: client role check, then insertion of a fresh
open case with no accepted quote. -/
def createCase (userId : String) (role : Role) (newCaseId : String) (now : Nat)
    (db : DB) : DB × Except ApiError String :=
  if role ≠ .client then (db, .error .FORBIDDEN)
  else
    ({ db with cases := db.cases ++
        [{ id := newCaseId, clientId := userId, status := .open_,
           acceptedQuoteId := none, createdAt := now, updatedAt := now }] },
     .ok newCaseId)

/-- The single read of createPaymentIntent: the quote with the given id and
status proposed, inner-joined with its case. -/
def findQuoteWithCase (db : DB) (quoteId : String) : Option (Quote × Case) :=
  match db.quotes.find? (fun q => q.id = quoteId ∧ q.status = .proposed) with
  | none => none
  | some q =>
    match db.cases.find? (fun c => c.id = q.caseId) with
    | none => none
    | some c => some (q, c)

/-- The createPaymentIntent service: quote-with-case lookup, ownership check,
open-case check, then the Stripe call followed by insertion of a pending
payment row. The outcome of the Stripe call enters as provider: none means
the call threw (mapped to INTERNAL_SERVER_ERROR by the catch block, with no
insertion); some (intentId, clientSecret) is a created intent. The row is
inserted only after a successful provider call. -/
def createPaymentIntent (quoteId clientId : String)
    (provider : Option (String × String)) (newPaymentId : String) (now : Nat)
    (db : DB) : DB × Except ApiError (String × String) :=
  match findQuoteWithCase db quoteId with
  | none => (db, .error .NOT_FOUND)
  | some (q, c) =>
    if c.clientId ≠ clientId then (db, .error .FORBIDDEN)
    else if c.status ≠ .open_ then (db, .error .BAD_REQUEST)
    else
      match provider with
      | none => (db, .error .INTERNAL_SERVER_ERROR)
      | some (intentId, clientSecret) =>
        ({ db with payments := db.payments ++
            [{ id := newPaymentId, caseId := c.id, quoteId := q.id,
               clientId := clientId, lawyerId := q.lawyerId, amount := q.amount,
               stripePaymentIntentId := intentId,
               clientSecret := some clientSecret, status := .pending,
               createdAt := now, updatedAt := now }] },
         .ok (clientSecret, intentId))

/-- The file-access derivation of getSignedDownloadUrl: locate the file and
its case, let a client through only when it owns the case, and let a lawyer
through only when the case is engaged and a quote with id equal to the
acceptedQuoteId of the case, owned by that lawyer and with status accepted,
exists. An ok result stands for a signed URL being issued. -/
def getSignedDownloadUrl (storageKey userId : String) (userRole : Role)
    (db : DB) : Except String Unit :=
  match db.files.find? (fun f => f.storageKey = storageKey) with
  | none => .error "File not found"
  | some f =>
    match db.cases.find? (fun c => c.id = f.caseId) with
    | none => .error "File not found"
    | some c =>
      if userRole = .client ∧ c.clientId ≠ userId then
        .error "Unauthorized: no access to this file"
      else if userRole = .lawyer then
        if c.status ≠ .engaged then .error "Unauthorized: case is not engaged"
        else
          match c.acceptedQuoteId with
          | none => .error "Unauthorized: no access to this case"
          | some aq =>
            if (db.quotes.find? (fun q =>
                q.id = aq ∧ q.lawyerId = userId ∧ q.status = .accepted)).isSome then
              .ok ()
            else .error "Unauthorized: no access to this case"
      else .ok ()

/-- Allowed upload MIME types of the uploadFile service. -/
def ALLOWED_MIME_TYPES : List String :=
  ["application/pdf", "image/png", "image/jpeg"]

/-- Maximum upload size of the uploadFile service (10 MB). -/
def MAX_FILE_SIZE : Nat := 10 * 1024 * 1024

/-- A multipart file field of the upload request. -/
structure UploadedFile where
  name : String
  size : Nat
  mimeType : String
deriving DecidableEq, Repr

/-- The uploadFile service: MIME-type and size validation, then the object
store write; a successful write returns the generated storage key and size. -/
def uploadFileService (caseId : String) (file : UploadedFile)
    (randomKey : String) : Except String (String × Nat) :=
  if ¬ ALLOWED_MIME_TYPES.contains file.mimeType then
    .error "Invalid file type"
  else if file.size > MAX_FILE_SIZE then
    .error "File exceeds maximum size of 10MB"
  else
    .ok (s!"cases/{caseId}/{randomKey}", file.size)

/-- The POST /api/upload endpoint: session check (401), client-role check
(403), form-field presence check (400), the uploadFile service, and the
insert of the file row. The insert carries the caseId taken directly from
the form data; no comparison of the case owner with the session user occurs
anywhere on the path. The foreign key of files.case_id makes the insert fail
when no case with that id exists (surfaced as 500 by the catch block). -/
def uploadEndpoint (session : Option (String × Role))
    (caseIdField : Option String) (fileField : Option UploadedFile)
    (randomKey newFileId : String) (now : Nat) (db : DB) :
    DB × Except Nat FileRecord :=
  match session with
  | none => (db, .error 401)
  | some (_, role) =>
    if role ≠ .client then (db, .error 403)
    else
      match caseIdField, fileField with
      | some caseId, some file =>
        (match uploadFileService caseId file randomKey with
         | .error _ => (db, .error 500)
         | .ok (storageKey, fileSize) =>
           if (db.cases.find? (fun c => c.id = caseId)).isSome then
             let newFile : FileRecord :=
               { id := newFileId, caseId := caseId, originalFilename := file.name,
                 storageKey := storageKey, fileSize := fileSize,
                 mimeType := file.mimeType, uploadedAt := now }
             ({ db with files := db.files ++ [newFile] }, .ok newFile)
           else (db, .error 500))
      | _, _ => (db, .error 400)

/-- One externally triggered operation of the system. Fresh database ids,
request timestamps and provider outcomes are recorded in the action so that
a trace determines the run. The createIntent action carries the role check
of the payments router in front of the createPaymentIntent service. -/
inductive Action
  | createCase (userId : String) (role : Role) (newCaseId : String) (now : Nat)
  | submitQuote (lawyerId : String) (role : Role) (caseId : String)
      (amount expectedDays : Nat) (note : Option String) (newQuoteId : String)
      (now : Nat)
  | withdrawQuote (lawyerId : String) (role : Role) (quoteId : String)
  | updateStatus (userId : String) (role : Role) (caseId : String)
      (newStatus : CaseStatus) (now : Nat)
  | createIntent (userId : String) (role : Role) (quoteId : String)
      (provider : Option (String × String)) (newPaymentId : String) (now : Nat)
  | webhook (e : StripeEvent) (now : Nat)
deriving DecidableEq, Repr

/-- Apply one action to the database; a request that ends in an error leaves
the database as the operation left it (all modelled operations return the
unchanged database together with the error). -/
def applyAction (db : DB) (a : Action) : DB :=
  match a with
  | .createCase userId role newCaseId now => (createCase userId role newCaseId now db).1
  | .submitQuote lawyerId role caseId amount expectedDays note newQuoteId now =>
    (submitQuote lawyerId role caseId amount expectedDays note newQuoteId now db).1
  | .withdrawQuote lawyerId role quoteId => (withdrawQuote lawyerId role quoteId db).1
  | .updateStatus userId role caseId newStatus now =>
    (updateStatus userId role caseId newStatus now db).1
  | .createIntent userId role quoteId provider newPaymentId now =>
    if role ≠ .client then db
    else (createPaymentIntent quoteId userId provider newPaymentId now db).1
  | .webhook e now => handlePaymentWebhook e now db

/-- Run a trace of actions from a starting database. -/
def runActions (acts : List Action) (db : DB) : DB :=
  acts.foldl applyAction db

/-- The empty database every deployment starts from. -/
def emptyDB : DB := { cases := [], quotes := [], payments := [], files := [] }

/-- Accepted quotes belonging to one case. -/
def acceptedQuotesOf (db : DB) (caseId : String) : List Quote :=
  db.quotes.filter (fun q => q.caseId = caseId ∧ q.status = .accepted)

/-- The single-accepted-quote invariant: every case has at most one accepted
quote, and any accepted quote is the one referenced by acceptedQuoteId of an
engaged case. -/
def caseQuoteInvariant (db : DB) : Bool :=
  db.cases.all (fun c =>
    (acceptedQuotesOf db c.id).length ≤ 1 &&
    (acceptedQuotesOf db c.id).all (fun q =>
      c.acceptedQuoteId = some q.id && c.status = .engaged))

/-- A webhook event is genuine for a database when a payment row carries its
intent id and the metadata the event reports is the metadata
createPaymentIntent attached to that intent. -/
def eventMatchesPayment (db : DB) (e : StripeEvent) : Bool :=
  db.payments.any (fun p =>
    p.stripePaymentIntentId = e.intentId && p.quoteId = e.quoteId &&
      p.caseId = e.caseId)

/-- Projection of the database onto the status columns the spec invariants
speak about: case status with accepted-quote reference, quote status, and
payment status, each keyed by the row id. -/
def statusView (db : DB) :
    List (String × CaseStatus × Option String) × List (String × QuoteStatus) ×
      List (String × PaymentStatus) :=
  (db.cases.map (fun c => (c.id, c.status, c.acceptedQuoteId)),
   db.quotes.map (fun q => (q.id, q.status)),
   db.payments.map (fun p => (p.id, p.status)))

/-- A sequential run of the system: one client posts a case, two lawyers bid,
the client requests a payment intent for each bid while the case is still
open, and Stripe later reports both charges as succeeded. Every request in
the trace passes the validation of the operation it invokes. -/
def doubleSuccessTrace : List Action :=
  [ .createCase "cl1" .client "C" 0,
    .submitQuote "lw1" .lawyer "C" 5000 10 none "QA" 1,
    .submitQuote "lw2" .lawyer "C" 4500 12 none "QB" 2,
    .createIntent "cl1" .client "QA" (some ("pi_A", "sec_A")) "pay_A" 3,
    .createIntent "cl1" .client "QB" (some ("pi_B", "sec_B")) "pay_B" 4,
    .webhook { type := .succeeded, intentId := "pi_A", quoteId := "QA", caseId := "C" } 5,
    .webhook { type := .succeeded, intentId := "pi_B", quoteId := "QB", caseId := "C" } 6 ]

/-- The first succeeded event of the trace, for the intent of quote QA. -/
def firstSuccessEvent : StripeEvent :=
  { type := .succeeded, intentId := "pi_A", quoteId := "QA", caseId := "C" }

/-- The second succeeded event of the trace, for the intent of quote QB. -/
def secondSuccessEvent : StripeEvent :=
  { type := .succeeded, intentId := "pi_B", quoteId := "QB", caseId := "C" }

/-- Case row of the post-engagement database used by several theorems. -/
def engagedCase : Case :=
  { id := "C", clientId := "cl1", status := .engaged,
    acceptedQuoteId := some "QA", createdAt := 0, updatedAt := 5 }

/-- Accepted quote of the engaged case. -/
def quoteQA : Quote :=
  { id := "QA", caseId := "C", lawyerId := "lw1", amount := 5000,
    expectedDays := 10, note := none, status := .accepted,
    createdAt := 1, updatedAt := 5 }

/-- Rejected sibling quote of the engaged case. -/
def quoteQB : Quote :=
  { id := "QB", caseId := "C", lawyerId := "lw2", amount := 4500,
    expectedDays := 12, note := none, status := .rejected,
    createdAt := 2, updatedAt := 5 }

/-- Database reached after the first engagement of case C: QA accepted, QB
rejected, the case engaged with acceptedQuoteId QA, the payment for QA
succeeded and the payment for QB still pending. -/
def engagedDB : DB :=
  { cases := [engagedCase],
    quotes := [quoteQA, quoteQB],
    payments := [{ id := "pay_A", caseId := "C", quoteId := "QA",
                   clientId := "cl1", lawyerId := "lw1", amount := 5000,
                   stripePaymentIntentId := "pi_A", clientSecret := some "sec_A",
                   status := .succeeded, createdAt := 3, updatedAt := 5 },
                 { id := "pay_B", caseId := "C", quoteId := "QB",
                   clientId := "cl1", lawyerId := "lw2", amount := 4500,
                   stripePaymentIntentId := "pi_B", clientSecret := some "sec_B",
                   status := .pending, createdAt := 4, updatedAt := 4 }],
    files := [] }

/-- A run in which the only payment of the system succeeds and Stripe then
delivers a payment_intent.payment_failed notification for the same intent. -/
def succeededThenFailedTrace : List Action :=
  [ .createCase "cl1" .client "C" 0,
    .submitQuote "lw1" .lawyer "C" 5000 10 none "QA" 1,
    .createIntent "cl1" .client "QA" (some ("pi_A", "sec_A")) "pay_A" 2,
    .webhook { type := .succeeded, intentId := "pi_A", quoteId := "QA", caseId := "C" } 3,
    .webhook { type := .failed, intentId := "pi_A", quoteId := "QA", caseId := "C" } 4 ]

/-- Open case used by the acceptance-scenario theorem witness. -/
def c4Case : Case :=
  { id := "C4", clientId := "cl4", status := .open_, acceptedQuoteId := none,
    createdAt := 0, updatedAt := 0 }

/-- First proposed quote of the acceptance scenario. -/
def c4Q1 : Quote :=
  { id := "Q41", caseId := "C4", lawyerId := "lwA", amount := 5000,
    expectedDays := 10, note := none, status := .proposed,
    createdAt := 1, updatedAt := 1 }

/-- Second proposed quote of the acceptance scenario, the one that is paid. -/
def c4Q2 : Quote :=
  { id := "Q42", caseId := "C4", lawyerId := "lwB", amount := 4500,
    expectedDays := 12, note := none, status := .proposed,
    createdAt := 2, updatedAt := 2 }

/-- Third proposed quote of the acceptance scenario. -/
def c4Q3 : Quote :=
  { id := "Q43", caseId := "C4", lawyerId := "lwC", amount := 6000,
    expectedDays := 20, note := none, status := .proposed,
    createdAt := 2, updatedAt := 2 }

/-- Pending payment for the second quote of the acceptance scenario. -/
def c4P : Payment :=
  { id := "pay42", caseId := "C4", quoteId := "Q42", clientId := "cl4",
    lawyerId := "lwB", amount := 4500, stripePaymentIntentId := "pi_42",
    clientSecret := some "sec_42", status := .pending,
    createdAt := 3, updatedAt := 3 }

/-- Database of the acceptance scenario: one open case, three proposed quotes
from distinct lawyers, one pending payment for the second quote. -/
def c4DB : DB :=
  { cases := [c4Case], quotes := [c4Q1, c4Q2, c4Q3], payments := [c4P],
    files := [] }

/-- Closed case used by the payment-intent witness. -/
def c7Case : Case :=
  { id := "C7", clientId := "cl7", status := .closed, acceptedQuoteId := none,
    createdAt := 0, updatedAt := 3 }

/-- Quote still proposed on the closed case of the payment-intent witness. -/
def c7Quote : Quote :=
  { id := "Q7", caseId := "C7", lawyerId := "lw7", amount := 1200,
    expectedDays := 5, note := none, status := .proposed,
    createdAt := 1, updatedAt := 1 }

/-- Database of the payment-intent witness. -/
def c7DB : DB :=
  { cases := [c7Case], quotes := [c7Quote], payments := [], files := [] }

/-- Database holding one open case and no quotes, before any submission. -/
def c8DB0 : DB :=
  { cases := [{ id := "C8", clientId := "cl8", status := .open_,
                acceptedQuoteId := none, createdAt := 0, updatedAt := 0 }],
    quotes := [], payments := [], files := [] }

/-- Database after the first submission of lawyer lw1 on case C8. -/
def c8DB1 : DB :=
  (submitQuote "lw1" .lawyer "C8" 5000 10 none "Q8" 1 c8DB0).1

/-- File stored on the engaged case C, used by the access-control witness. -/
def c9File : FileRecord :=
  { id := "F9", caseId := "C", originalFilename := "brief.pdf",
    storageKey := "k9", fileSize := 1234, mimeType := "application/pdf",
    uploadedAt := 6 }

/-- Database of the access-control witness: the engaged case with one file. -/
def c9DB : DB :=
  { engagedDB with files := [c9File] }

/-- Case owned by a client different from the uploader of the upload witness. -/
def c10Case : Case :=
  { id := "C10", clientId := "clOwner", status := .open_,
    acceptedQuoteId := none, createdAt := 0, updatedAt := 0 }

/-- Database of the upload witness. -/
def c10DB : DB :=
  { cases := [c10Case], quotes := [], payments := [], files := [] }

/-- Valid PDF upload used by the upload witness. -/
def c10Upload : UploadedFile :=
  { name := "evidence.pdf", size := 2048, mimeType := "application/pdf" }

lemma map_congr_fun {α β : Type} {f g : α → β} (h : ∀ a, f a = g a) (l : List α) :
    l.map f = l.map g := by
  induction l with
  | nil => rfl
  | cons hd tl ih => simp [h hd, ih]

lemma markPaymentSucceeded_proj_idem (i : String) (n1 n2 : Nat) (p : Payment) :
    ((markPaymentSucceeded i n2 (markPaymentSucceeded i n1 p)).id,
     (markPaymentSucceeded i n2 (markPaymentSucceeded i n1 p)).status) =
    ((markPaymentSucceeded i n1 p).id, (markPaymentSucceeded i n1 p).status) := by
  unfold markPaymentSucceeded
  by_cases h : p.stripePaymentIntentId = i <;> simp [h]

lemma markPaymentFailed_proj_idem (i : String) (n1 n2 : Nat) (p : Payment) :
    ((markPaymentFailed i n2 (markPaymentFailed i n1 p)).id,
     (markPaymentFailed i n2 (markPaymentFailed i n1 p)).status) =
    ((markPaymentFailed i n1 p).id, (markPaymentFailed i n1 p).status) := by
  unfold markPaymentFailed
  by_cases h : p.stripePaymentIntentId = i <;> simp [h]

lemma engageCase_proj_idem (cid qid : String) (n1 n2 : Nat) (c : Case) :
    ((engageCase cid qid n2 (engageCase cid qid n1 c)).id,
     (engageCase cid qid n2 (engageCase cid qid n1 c)).status,
     (engageCase cid qid n2 (engageCase cid qid n1 c)).acceptedQuoteId) =
    ((engageCase cid qid n1 c).id, (engageCase cid qid n1 c).status,
     (engageCase cid qid n1 c).acceptedQuoteId) := by
  unfold engageCase
  by_cases h : c.id = cid <;> simp [h]

lemma quoteSteps_proj_idem (cid qid : String) (n1 n2 : Nat) (q : Quote) :
    ((acceptTargetQuote qid n2 (rejectProposedOnCase cid n2
        (acceptTargetQuote qid n1 (rejectProposedOnCase cid n1 q)))).id,
     (acceptTargetQuote qid n2 (rejectProposedOnCase cid n2
        (acceptTargetQuote qid n1 (rejectProposedOnCase cid n1 q)))).status) =
    ((acceptTargetQuote qid n1 (rejectProposedOnCase cid n1 q)).id,
     (acceptTargetQuote qid n1 (rejectProposedOnCase cid n1 q)).status) := by
  unfold acceptTargetQuote rejectProposedOnCase
  by_cases hid : q.id = qid <;>
    by_cases hcs : q.caseId = cid ∧ q.status = .proposed <;>
    simp [hid, hcs]

/-- C1: the single-accepted-quote invariant is not preserved by the
operations of the system. After the double-success trace the invariant
predicate is false: case C carries two accepted quotes, QA and QB, while
acceptedQuoteId references only QB. The invariant still held before the
final webhook, and that webhook is a genuine event for a payment row the
system itself created, so the violating state is reachable. -/
theorem invariant_single_accepted_quote_violated :
    caseQuoteInvariant (runActions doubleSuccessTrace emptyDB) = false ∧
    caseQuoteInvariant (runActions (doubleSuccessTrace.take 6) emptyDB) = true ∧
    eventMatchesPayment (runActions (doubleSuccessTrace.take 6) emptyDB)
      secondSuccessEvent = true ∧
    ((runActions doubleSuccessTrace emptyDB).quotes.countP
      (fun q => q.caseId = "C" ∧ q.status = .accepted)) = 2 ∧
    (∃ c ∈ (runActions doubleSuccessTrace emptyDB).cases,
      c.id = "C" ∧ c.status = .engaged ∧ c.acceptedQuoteId = some "QB") := by
  decide

/-- C2: on an already engaged case, a succeeded notification for the payment
of a different quote is not a no-op. handlePaymentWebhook applies its own
accept/reject set unguarded: the previously rejected quote QB becomes
accepted and acceptedQuoteId of the case is overwritten to QB. -/
theorem engaged_case_second_success_not_noop :
    handlePaymentWebhook secondSuccessEvent 7 engagedDB ≠ engagedDB ∧
    (∃ q ∈ (handlePaymentWebhook secondSuccessEvent 7 engagedDB).quotes,
      q.id = "QB" ∧ q.status = .accepted) ∧
    (∃ c ∈ (handlePaymentWebhook secondSuccessEvent 7 engagedDB).cases,
      c.id = "C" ∧ c.status = .engaged ∧ c.acceptedQuoteId = some "QB") ∧
    eventMatchesPayment engagedDB secondSuccessEvent = true := by
  decide

/-- C3 counterexample: processing the same succeeded notification a second
time is not a no-op on the state as stored. There is no lookup of the
payment by intent id and no terminal-status short-circuit in the code: the
second processing unconditionally re-applies the four updates and refreshes
the updatedAt timestamps, so the resulting database differs from the one
after a single processing. -/
theorem duplicate_success_delivery_changes_state :
    handlePaymentWebhook firstSuccessEvent 6 (handlePaymentWebhook firstSuccessEvent 5
      (runActions (doubleSuccessTrace.take 5) emptyDB)) ≠
    handlePaymentWebhook firstSuccessEvent 5
      (runActions (doubleSuccessTrace.take 5) emptyDB) ∧
    (((handlePaymentWebhook firstSuccessEvent 6 (handlePaymentWebhook firstSuccessEvent 5
        (runActions (doubleSuccessTrace.take 5) emptyDB))).payments.find?
      (fun p => p.stripePaymentIntentId = "pi_A")).map (fun p => p.updatedAt)) = some 6 ∧
    (((handlePaymentWebhook firstSuccessEvent 5
        (runActions (doubleSuccessTrace.take 5) emptyDB)).payments.find?
      (fun p => p.stripePaymentIntentId = "pi_A")).map (fun p => p.updatedAt)) = some 5 := by
  decide

/-- C3 amended: processing any webhook event a second time leaves the status
projection of the database unchanged — every case status and accepted-quote
reference, every quote status and every payment status agree with the state
after a single processing. Only the updatedAt timestamps are rewritten,
because the handler re-applies its updates rather than short-circuiting. -/
theorem webhook_statusView_idem (e : StripeEvent) (n1 n2 : Nat) (db : DB) :
    statusView (handlePaymentWebhook e n2 (handlePaymentWebhook e n1 db)) =
      statusView (handlePaymentWebhook e n1 db) := by
  rcases e with ⟨ty, i, qid, cid⟩
  cases ty with
  | succeeded =>
    simp only [handlePaymentWebhook, processSucceeded, statusView, List.map_map,
      Prod.mk.injEq]
    refine ⟨?_, ?_, ?_⟩
    · exact map_congr_fun (fun c => engageCase_proj_idem cid qid n1 n2 c) db.cases
    · exact map_congr_fun (fun q => quoteSteps_proj_idem cid qid n1 n2 q) db.quotes
    · exact map_congr_fun (fun p => markPaymentSucceeded_proj_idem i n1 n2 p) db.payments
  | failed =>
    simp only [handlePaymentWebhook, statusView, List.map_map, Prod.mk.injEq]
    refine ⟨trivial, trivial, ?_⟩
    exact map_congr_fun (fun p => markPaymentFailed_proj_idem i n1 n2 p) db.payments
  | other => rfl

/-- C4: a succeeded notification for the payment of quote Q2 on an open case
with three proposed quotes from distinct lawyers accepts Q2, rejects Q1 and
Q3, engages the case with acceptedQuoteId Q2, marks the payment succeeded,
and leaves every quote of every other case untouched. -/
theorem webhook_success_engages_exactly_target
    (db : DB) (C : Case) (Q1 Q2 Q3 : Quote) (P : Payment) (intentId : String) (now : Nat)
    (hC : C ∈ db.cases) (hCopen : C.status = .open_)
    (hq1 : Q1 ∈ db.quotes) (hq1c : Q1.caseId = C.id) (hq1s : Q1.status = .proposed)
    (hq2 : Q2 ∈ db.quotes) (hq2c : Q2.caseId = C.id) (hq2s : Q2.status = .proposed)
    (hq3 : Q3 ∈ db.quotes) (hq3c : Q3.caseId = C.id) (hq3s : Q3.status = .proposed)
    (h12 : Q1.id ≠ Q2.id) (h32 : Q3.id ≠ Q2.id)
    (hl12 : Q1.lawyerId ≠ Q2.lawyerId) (hl13 : Q1.lawyerId ≠ Q3.lawyerId)
    (hl23 : Q2.lawyerId ≠ Q3.lawyerId)
    (hP : P ∈ db.payments) (hPs : P.status = .pending)
    (hPi : P.stripePaymentIntentId = intentId) (hPq : P.quoteId = Q2.id) :
    ({ Q2 with status := .accepted, updatedAt := now } ∈
      (handlePaymentWebhook ⟨.succeeded, intentId, Q2.id, C.id⟩ now db).quotes) ∧
    ({ Q1 with status := .rejected, updatedAt := now } ∈
      (handlePaymentWebhook ⟨.succeeded, intentId, Q2.id, C.id⟩ now db).quotes) ∧
    ({ Q3 with status := .rejected, updatedAt := now } ∈
      (handlePaymentWebhook ⟨.succeeded, intentId, Q2.id, C.id⟩ now db).quotes) ∧
    ({ C with status := .engaged, acceptedQuoteId := some Q2.id, updatedAt := now } ∈
      (handlePaymentWebhook ⟨.succeeded, intentId, Q2.id, C.id⟩ now db).cases) ∧
    ({ P with status := .succeeded, updatedAt := now } ∈
      (handlePaymentWebhook ⟨.succeeded, intentId, Q2.id, C.id⟩ now db).payments) ∧
    (∀ q ∈ db.quotes, q.caseId ≠ C.id → q.id ≠ Q2.id →
      q ∈ (handlePaymentWebhook ⟨.succeeded, intentId, Q2.id, C.id⟩ now db).quotes) := by
  simp only [handlePaymentWebhook, processSucceeded]
  refine ⟨?_, ?_, ?_, ?_, ?_, ?_⟩
  · have h2 : acceptTargetQuote Q2.id now (rejectProposedOnCase C.id now Q2) =
        { Q2 with status := .accepted, updatedAt := now } := by
      simp [acceptTargetQuote, rejectProposedOnCase, hq2c, hq2s]
    exact h2 ▸ List.mem_map_of_mem _ (List.mem_map_of_mem _ hq2)
  · have h1 : acceptTargetQuote Q2.id now (rejectProposedOnCase C.id now Q1) =
        { Q1 with status := .rejected, updatedAt := now } := by
      simp [acceptTargetQuote, rejectProposedOnCase, hq1c, hq1s, h12]
    exact h1 ▸ List.mem_map_of_mem _ (List.mem_map_of_mem _ hq1)
  · have h3 : acceptTargetQuote Q2.id now (rejectProposedOnCase C.id now Q3) =
        { Q3 with status := .rejected, updatedAt := now } := by
      simp [acceptTargetQuote, rejectProposedOnCase, hq3c, hq3s, h32]
    exact h3 ▸ List.mem_map_of_mem _ (List.mem_map_of_mem _ hq3)
  · have hc : engageCase C.id Q2.id now C =
        { C with status := .engaged, acceptedQuoteId := some Q2.id, updatedAt := now } := by
      simp [engageCase]
    exact hc ▸ List.mem_map_of_mem _ hC
  · have hp : markPaymentSucceeded intentId now P =
        { P with status := .succeeded, updatedAt := now } := by
      simp [markPaymentSucceeded, hPi]
    exact hp ▸ List.mem_map_of_mem _ hP
  · intro q hq hqc hqi
    have hfix : acceptTargetQuote Q2.id now (rejectProposedOnCase C.id now q) = q := by
      simp [acceptTargetQuote, rejectProposedOnCase, hqc, hqi]
    exact hfix ▸ List.mem_map_of_mem _ (List.mem_map_of_mem _ hq)

/-- Witness for C4: the acceptance scenario evaluated on the concrete
three-quote database. -/
theorem webhook_success_engages_exactly_target_witness :
    ({ c4Q2 with status := .accepted, updatedAt := 9 } ∈
      (handlePaymentWebhook ⟨.succeeded, "pi_42", c4Q2.id, c4Case.id⟩ 9 c4DB).quotes) ∧
    ({ c4Q1 with status := .rejected, updatedAt := 9 } ∈
      (handlePaymentWebhook ⟨.succeeded, "pi_42", c4Q2.id, c4Case.id⟩ 9 c4DB).quotes) ∧
    ({ c4Case with status := .engaged, acceptedQuoteId := some c4Q2.id, updatedAt := 9 } ∈
      (handlePaymentWebhook ⟨.succeeded, "pi_42", c4Q2.id, c4Case.id⟩ 9 c4DB).cases) := by
  have h := webhook_success_engages_exactly_target c4DB c4Case c4Q1 c4Q2 c4Q3 c4P "pi_42" 9
    (by decide) (by decide) (by decide) (by decide) (by decide) (by decide) (by decide)
    (by decide) (by decide) (by decide) (by decide) (by decide) (by decide) (by decide)
    (by decide) (by decide) (by decide) (by decide) (by decide) (by decide)
  exact ⟨h.1, h.2.1, h.2.2.2.1⟩

/-- C5: payment status is not monotone. After the succeeded webhook the
payment for intent pi_A is in the terminal status succeeded, yet the later
payment_failed webhook for the same intent moves it to failed: the
failed-branch update carries no terminal-status guard. -/
theorem payment_status_reverts_after_failed_webhook :
    ((runActions (succeededThenFailedTrace.take 4) emptyDB).payments.find?
      (fun p => p.stripePaymentIntentId = "pi_A")).map (fun p => p.status) =
        some .succeeded ∧
    ((runActions succeededThenFailedTrace emptyDB).payments.find?
      (fun p => p.stripePaymentIntentId = "pi_A")).map (fun p => p.status) =
        some .failed := by
  decide

/-- C6: updateStatus applies the requested status without reading the
current one. On the engaged case C the owner request to close succeeds and
the case status becomes closed, instead of being rejected with a validation
error. -/
theorem updateStatus_closes_engaged_case :
    (updateStatus "cl1" .client "C" .closed 8 engagedDB).2 = .ok () ∧
    ((updateStatus "cl1" .client "C" .closed 8 engagedDB).1.cases.find?
      (fun c => c.id = "C")).map (fun c => c.status) = some .closed := by
  decide

/-- C7: createPaymentIntent persists nothing on any error; on success the
provider call has succeeded and exactly one pending payment row is appended;
and when the looked-up quote belongs to a case owned by the caller whose
status is not open, the call fails with the invalid-state error BAD_REQUEST
and returns the database unchanged. -/
theorem createPaymentIntent_no_row_on_failure
    (quoteId clientId : String) (provider : Option (String × String))
    (newPaymentId : String) (now : Nat) (db : DB) :
    ((∀ err, (createPaymentIntent quoteId clientId provider newPaymentId now db).2 =
        .error err →
      (createPaymentIntent quoteId clientId provider newPaymentId now db).1 = db) ∧
     (∀ v, (createPaymentIntent quoteId clientId provider newPaymentId now db).2 = .ok v →
      ∃ intentId secret, provider = some (intentId, secret) ∧
      ∃ p, (createPaymentIntent quoteId clientId provider newPaymentId now db).1.payments =
          db.payments ++ [p] ∧ p.status = .pending) ∧
     (∀ q c, findQuoteWithCase db quoteId = some (q, c) → c.clientId = clientId →
      c.status ≠ .open_ →
      createPaymentIntent quoteId clientId provider newPaymentId now db =
        (db, .error .BAD_REQUEST))) := by
  refine ⟨?_, ?_, ?_⟩
  · intro err h
    unfold createPaymentIntent at h ⊢
    cases hfind : findQuoteWithCase db quoteId with
    | none => rfl
    | some qc =>
      obtain ⟨q, c⟩ := qc
      rw [hfind] at h
      by_cases hown : c.clientId ≠ clientId
      · simp [hown]
      · by_cases hopen : c.status ≠ .open_
        · simp [hown, hopen]
        · cases provider with
          | none => simp [hown, hopen]
          | some pr =>
            obtain ⟨i, s⟩ := pr
            simp [hown, hopen] at h
  · intro v h
    unfold createPaymentIntent at h ⊢
    cases hfind : findQuoteWithCase db quoteId with
    | none =>
      rw [hfind] at h
      simp at h
    | some qc =>
      obtain ⟨q, c⟩ := qc
      rw [hfind] at h
      by_cases hown : c.clientId ≠ clientId
      · simp [hown] at h
      · by_cases hopen : c.status ≠ .open_
        · simp [hown, hopen] at h
        · cases provider with
          | none => simp [hown, hopen] at h
          | some pr =>
            obtain ⟨i, s⟩ := pr
            refine ⟨i, s, rfl,
              ⟨{ id := newPaymentId, caseId := c.id, quoteId := q.id,
                 clientId := clientId, lawyerId := q.lawyerId, amount := q.amount,
                 stripePaymentIntentId := i, clientSecret := some s,
                 status := .pending, createdAt := now, updatedAt := now },
               ?_, rfl⟩⟩
            simp [hown, hopen]
  · intro q c hfind hcl hst
    unfold createPaymentIntent
    rw [hfind]
    simp [hcl, hst]

/-- Witness for C7: on the closed case C7 the intent request of the owner
fails with BAD_REQUEST and the database is returned unchanged, although the
provider call would have succeeded. -/
theorem createPaymentIntent_no_row_on_failure_witness :
    createPaymentIntent "Q7" "cl7" (some ("pi_7", "sec_7")) "pay_7" 9 c7DB =
      (c7DB, .error .BAD_REQUEST) :=
  (createPaymentIntent_no_row_on_failure "Q7" "cl7" (some ("pi_7", "sec_7"))
      "pay_7" 9 c7DB).2.2
    c7Quote c7Case (by decide) (by decide) (by decide)

/-- C8: while a proposed quote of the lawyer exists on the case, submit
updates that quote in place — same row count, the returned id is the id of
the existing quote, and the quote list is the old list with only the first
matching proposed quote rewritten to the new amount, days and note. -/
theorem submit_updates_existing_in_place
    (lawyerId caseId : String) (amount expectedDays : Nat) (note : Option String)
    (newQuoteId : String) (now : Nat) (db : DB) (c0 : Case) (q0 : Quote)
    (hvalid : submitInputValid amount expectedDays note)
    (hcase : db.cases.find? (fun c => c.id = caseId) = some c0)
    (hopen : c0.status = .open_)
    (hq0 : db.quotes.find? (fun q =>
        q.caseId = caseId ∧ q.lawyerId = lawyerId ∧ q.status = .proposed) = some q0) :
    (submitQuote lawyerId .lawyer caseId amount expectedDays note newQuoteId now db).2 =
      .ok q0.id ∧
    (submitQuote lawyerId .lawyer caseId amount expectedDays note newQuoteId now db).1.quotes.length =
      db.quotes.length ∧
    (submitQuote lawyerId .lawyer caseId amount expectedDays note newQuoteId now db).1.quotes =
      db.quotes.map (fun q =>
        if q.id = q0.id then
          { q with amount := amount, expectedDays := expectedDays,
                   note := normNote note, updatedAt := now }
        else q) := by
  unfold submitQuote
  rw [hcase, hq0]
  simp [hvalid, hopen]

/-- Witness for C8: a second submission by lw1 on case C8 returns the id of
the first quote and keeps the row count at one. -/
theorem submit_updates_existing_in_place_witness :
    (submitQuote "lw1" .lawyer "C8" 4800 7 none "Q8b" 2 c8DB1).2 = .ok "Q8" ∧
    (submitQuote "lw1" .lawyer "C8" 4800 7 none "Q8b" 2 c8DB1).1.quotes.length =
      c8DB1.quotes.length := by
  have h := submit_updates_existing_in_place "lw1" "C8" 4800 7 none "Q8b" 2 c8DB1
    { id := "C8", clientId := "cl8", status := .open_, acceptedQuoteId := none,
      createdAt := 0, updatedAt := 0 }
    { id := "Q8", caseId := "C8", lawyerId := "lw1", amount := 5000,
      expectedDays := 10, note := none, status := .proposed,
      createdAt := 1, updatedAt := 1 }
    (by decide) (by decide) (by decide) (by decide)
  exact ⟨h.1, h.2.1⟩

/-- C9: a lawyer obtains a signed URL for a stored file exactly when the file
and its case exist, the case is engaged, and the quote referenced by the
acceptedQuoteId of the case is a quote of that lawyer with status accepted;
every other lawyer is denied. -/
theorem lawyer_file_access_iff (storageKey userId : String) (db : DB) :
    getSignedDownloadUrl storageKey userId .lawyer db = .ok () ↔
    (∃ f, db.files.find? (fun f => f.storageKey = storageKey) = some f ∧
     ∃ c, db.cases.find? (fun c2 => c2.id = f.caseId) = some c ∧
      c.status = .engaged ∧
      ∃ aq q, c.acceptedQuoteId = some aq ∧
        db.quotes.find? (fun q2 =>
          q2.id = aq ∧ q2.lawyerId = userId ∧ q2.status = .accepted) = some q ∧
        q.id = aq ∧ q.lawyerId = userId ∧ q.status = .accepted) := by
  constructor
  · intro h
    unfold getSignedDownloadUrl at h
    split at h
    · simp at h
    · next f hf =>
      split at h
      · simp at h
      · next c hc =>
        simp only [reduceIte] at h
        rw [if_neg (by simp : ¬ (Role.lawyer = Role.client ∧ c.clientId ≠ userId))] at h
        by_cases hst : c.status ≠ .engaged
        · rw [if_pos hst] at h
          simp at h
        · rw [if_neg hst] at h
          push_neg at hst
          cases haq : c.acceptedQuoteId with
          | none => rw [haq] at h; simp at h
          | some aq =>
            rw [haq] at h
            have h2 : (if (db.quotes.find? (fun q2 =>
                q2.id = aq ∧ q2.lawyerId = userId ∧
                  q2.status = .accepted)).isSome = true
                then (Except.ok () : Except String Unit)
                else .error "Unauthorized: no access to this case") = .ok () := h
            by_cases hsome : (db.quotes.find? (fun q2 =>
                q2.id = aq ∧ q2.lawyerId = userId ∧
                  q2.status = .accepted)).isSome = true
            · obtain ⟨q, hq⟩ := Option.isSome_iff_exists.mp hsome
              have hpred := List.find?_some hq
              simp only [decide_eq_true_eq] at hpred
              exact ⟨f, hf, c, hc, hst, aq, q, haq, hq, hpred.1, hpred.2.1, hpred.2.2⟩
            · rw [if_neg hsome] at h2
              simp at h2
  · rintro ⟨f, hf, c, hc, hst, aq, q, haq, hq, hqid, hql, hqs⟩
    unfold getSignedDownloadUrl
    simp only [hf, hc]
    simp [hst, haq, hq]
    exact ⟨q, List.mem_of_find?_eq_some hq, hqid, hql, hqs⟩

/-- Witness for C9: on the engaged case the accepted lawyer lw1 is granted a
signed URL for the stored file while the rejected lawyer lw2 is denied. -/
theorem lawyer_file_access_iff_witness :
    getSignedDownloadUrl "k9" "lw1" .lawyer c9DB = .ok () ∧
    getSignedDownloadUrl "k9" "lw2" .lawyer c9DB =
      .error "Unauthorized: no access to this case" := by
  constructor
  · exact (lawyer_file_access_iff "k9" "lw1" c9DB).mpr
      ⟨c9File, by decide, engagedCase, by decide, by decide, "QA", quoteQA,
       by decide, by decide, by decide, by decide, by decide⟩
  · decide

/-- C10: the upload endpoint never compares the case owner with the session
user. Any authenticated client uploading a valid file against any existing
case succeeds: the response carries the new file row attached to that case
and the row is appended to the files table. -/
theorem upload_ignores_case_ownership
    (userId caseId : String) (file : UploadedFile) (randomKey newFileId : String)
    (now : Nat) (db : DB) (c : Case)
    (hc : db.cases.find? (fun c2 => c2.id = caseId) = some c)
    (hmime : ALLOWED_MIME_TYPES.contains file.mimeType = true)
    (hsize : file.size ≤ MAX_FILE_SIZE) :
    (uploadEndpoint (some (userId, .client)) (some caseId) (some file)
        randomKey newFileId now db).2 =
      .ok { id := newFileId, caseId := caseId, originalFilename := file.name,
            storageKey := s!"cases/{caseId}/{randomKey}", fileSize := file.size,
            mimeType := file.mimeType, uploadedAt := now } ∧
    (uploadEndpoint (some (userId, .client)) (some caseId) (some file)
        randomKey newFileId now db).1.files =
      db.files ++
        [{ id := newFileId, caseId := caseId, originalFilename := file.name,
           storageKey := s!"cases/{caseId}/{randomKey}", fileSize := file.size,
           mimeType := file.mimeType, uploadedAt := now }] := by
  have hm2 : file.mimeType ∈ ALLOWED_MIME_TYPES := by simpa using hmime
  constructor <;>
    simp [uploadEndpoint, uploadFileService, hm2, Nat.not_lt.mpr hsize, hc]

/-- Witness for C10: a client distinct from the case owner uploads a valid
PDF against the case of the other client and the upload succeeds. -/
theorem upload_ignores_case_ownership_witness :
    c10Case.clientId ≠ "clUploader" ∧
    (uploadEndpoint (some ("clUploader", .client)) (some "C10") (some c10Upload)
        "rk" "F10" 5 c10DB).2 =
      .ok { id := "F10", caseId := "C10", originalFilename := "evidence.pdf",
            storageKey := "cases/C10/rk", fileSize := 2048,
            mimeType := "application/pdf", uploadedAt := 5 } := by
  refine ⟨by decide, ?_⟩
  have h := upload_ignores_case_ownership "clUploader" "C10" c10Upload "rk" "F10" 5
    c10DB c10Case (by decide) (by decide) (by decide)
  exact h.1

end Justitia
